import Mathlib

/-!
Verification of the wildfire orchestration engine (`containment` repository).

The deterministic core of `src/backend/agents/orchestrator.py` — the physics
translation `process_live_graph`, the guardrail validator
`validate_agent_reasoning`, the bounded retry loop `execute_agent_graph`, and
the rate-limit wrapper `_call_openai_with_retry` — is embedded shallowly below.
Python floats are modelled as exact rationals (`ℚ`); the Python call `round(x, 2)`
(round half to even) is `round2`; Python dict `.get(key, default)` access is
modelled with `Option` fields and `Option.getD`.  The external LLM calls are
modelled by an oracle supplying one bundle of schema-valid agent results per
orchestration attempt (the oracle also sees the validator feedback and the
previous recommendation, mirroring the arguments the Python agent functions
receive).  The near-duplicate variant `src/orchestrator.py` is embedded
separately in the `RootOrch` namespace for the equivalence claim.
-/

namespace Containment

/-- Python `round(x, 2)`: scale by 100, round half to even, scale back. -/
def round2 (q : ℚ) : ℚ :=
  let scaled := q * 100
  let fl : ℤ := ⌊scaled⌋
  let frac := scaled - (fl : ℚ)
  if frac < 1/2 then (fl : ℚ) / 100
  else if 1/2 < frac then ((fl + 1 : ℤ) : ℚ) / 100
  else (if fl % 2 = 0 then (fl : ℚ) else ((fl + 1 : ℤ) : ℚ)) / 100

/-- Python `str.lower()` (ASCII suffices for the vegetation keywords). -/
def lowerStr (s : String) : String := ⟨s.data.map Char.toLower⟩

/-- The text before the first occurrence of `sep`, i.e. Python
`s.split(sep)[0]` for a non-empty separator. -/
def splitHeadBefore (sep : List Char) : List Char → List Char
  | [] => []
  | c :: rest => if sep.isPrefixOf (c :: rest) then [] else c :: splitHeadBefore sep rest

/-- Python `str.strip()`: drop whitespace from both ends. -/
def stripChars (s : List Char) : List Char :=
  ((s.dropWhile Char.isWhitespace).reverse.dropWhile Char.isWhitespace).reverse

-- ### Shared data model (identical in both orchestrator variants)

/-- `live_graph` dict: keys read via `.get` with defaults. -/
structure LiveGraph where
  step : Option ℤ
  total_burning : Option ℚ
  total_burned : Option ℚ
deriving DecidableEq

/-- `wind_data` dict: only `speed` is read. -/
structure WindData where
  speed : Option ℚ
deriving DecidableEq

/-- `environment_data` dict: `slope` and `terrain_vegetation` are read. -/
structure EnvironmentData where
  slope : Option ℚ
  terrain_vegetation : Option String
deriving DecidableEq

/-- One entry of `infrastructure_data["nearby_towns"]`. -/
structure Town where
  name : Option String
  distance_km : Option ℚ
deriving DecidableEq

/-- `infrastructure_data` dict: only `nearby_towns` is read. -/
structure InfrastructureData where
  nearby_towns : Option (List Town)
deriving DecidableEq

/-- The `raw_stats` sub-dict of the processed graph. -/
structure RawStats where
  step : ℤ
  active_fire_cells : ℚ
  total_destroyed_cells : ℚ
deriving DecidableEq

/-- The `computed_physics` sub-dict of the processed graph. -/
structure ComputedPhysics where
  base_spread_velocity : ℚ
  effective_velocity_multiplier : ℚ
  effective_spread_velocity : ℚ
  deterministic_baseline_threat : String
  critical_exposures_identified : List String
deriving DecidableEq

/-- Return value of `process_live_graph`. -/
structure ProcessedGraph where
  raw_stats : RawStats
  computed_physics : ComputedPhysics
deriving DecidableEq

/-- `RiskAnalysis` pydantic model (textually identical in both variants). -/
structure RiskAnalysis where
  threat_level : String
  vulnerable_targets : List String
deriving DecidableEq

namespace Backend

-- ### src/backend/agents/orchestrator.py

def MAX_RETRIES : ℕ := 2
def RATE_LIMIT_RETRY_ATTEMPTS : ℕ := 3
def RATE_LIMIT_BACKOFF_BASE : ℕ := 20

/-- `FireAnalysis` pydantic model. -/
structure FireAnalysis where
  behavior_summary : String
  spread_direction : String
  spread_velocity_assessment : String
deriving DecidableEq

/-- `NotificationItem` pydantic model (backend variant: one `fact` field). -/
structure NotificationItem where
  fact : String
deriving DecidableEq

/-- `AgentNotifications` pydantic model. Pydantic does not constrain the
length of `alerts`; the "exactly 3" wording lives only in the field
description shown to the LLM. -/
structure AgentNotifications where
  alerts : List NotificationItem
deriving DecidableEq

/-- `AgentRecommendation` pydantic model (backend variant). -/
structure AgentRecommendation where
  action : String
  rationale : String
  confidence_score : ℤ
deriving DecidableEq

/-- The f-string building one exposure record: town name, the text " is ",
the distance and the suffix "km away."; a missing name renders as Python
None. -/
def exposureEntry (t : Town) : String :=
  (t.name.getD "None") ++ " is " ++ toString (t.distance_km.getD 99) ++ "km away."

/-- One iteration of the `for town in towns` loop of `process_live_graph`,
acting on the state `(baseline_threat, critical_exposures)`. -/
def townStep (st : String × List String) (town : Town) : String × List String :=
  let distance := town.distance_km.getD 99
  if distance < 5 then ("CRITICAL", st.2 ++ [exposureEntry town])
  else if distance < 15 ∧ st.1 ≠ "CRITICAL" then ("ELEVATED", st.2)
  else st

/-- `process_live_graph` of the backend orchestrator. -/
def process_live_graph (live_graph : LiveGraph) (wind_data : WindData)
    (environment_data : EnvironmentData) (infrastructure_data : InfrastructureData) :
    ProcessedGraph :=
  let step : ℤ := max 1 (live_graph.step.getD 1)
  let total_burning : ℚ := live_graph.total_burning.getD 0
  let total_burned : ℚ := live_graph.total_burned.getD 0
  let wind_speed : ℚ := wind_data.speed.getD 0
  let slope : ℚ := environment_data.slope.getD 0
  let vegetation : String := lowerStr (environment_data.terrain_vegetation.getD "unknown")
  let towns : List Town := infrastructure_data.nearby_towns.getD []
  let base_spread_velocity : ℚ := round2 (total_burning / (step : ℚ))
  let m1 : ℚ := 1.0
  let m2 : ℚ := if slope > 20 then m1 + 0.5 else m1
  let velocity_multiplier : ℚ :=
    if vegetation ∈ ["chaparral", "brush", "timber"] then m2 + 0.3 else m2
  let effective_spread_velocity : ℚ := round2 (base_spread_velocity * velocity_multiplier)
  let folded := towns.foldl townStep ("LOW", [])
  let baseline_threat : String :=
    if effective_spread_velocity > 15 ∨ (wind_speed > 30 ∧ slope > 15)
    then "CRITICAL" else folded.1
  { raw_stats := { step := step, active_fire_cells := total_burning,
                   total_destroyed_cells := total_burned },
    computed_physics := { base_spread_velocity := base_spread_velocity,
                          effective_velocity_multiplier := velocity_multiplier,
                          effective_spread_velocity := effective_spread_velocity,
                          deterministic_baseline_threat := baseline_threat,
                          critical_exposures_identified := folded.2 } }

/-- The R1 message (its two f-string halves concatenated; `\x27` is the
ASCII single quote of the source text). -/
def escalationMsg (level : String) : String :=
  "Physics Violation: Deterministic math calculates a CRITICAL threat " ++
    "but you output \x27" ++ level ++ "\x27. You MUST escalate."

/-- The R2 message. -/
def exposureMsg : String :=
  "Logic Violation: You failed to mention critical exposure town(s) in your vulnerable targets."

/-- The name-extraction loop of the validator: for each exposure string take
the text before `" is "`, strip it, and keep it if non-empty. -/
def exposureNames (exposures : List String) : List String :=
  exposures.filterMap (fun e =>
    let name : String := ⟨stripChars (splitHeadBefore " is ".data e.data)⟩
    if name ≠ "" then some name else none)

/-- `validate_agent_reasoning` of the backend orchestrator.  `rec_data` is
received but never inspected, exactly as in the source. -/
def validate_agent_reasoning (processed_graph : ProcessedGraph)
    (risk_data : RiskAnalysis) (rec_data : AgentRecommendation) : List String :=
  let physics := processed_graph.computed_physics
  let errors1 : List String :=
    if physics.deterministic_baseline_threat = "CRITICAL" ∧ risk_data.threat_level ≠ "CRITICAL"
    then [escalationMsg risk_data.threat_level] else []
  let exposures := physics.critical_exposures_identified
  let errors2 : List String :=
    if exposures = [] then []
    else
      let names := exposureNames exposures
      if names ≠ [] ∧ ¬ (names.any fun name => risk_data.vulnerable_targets.contains name)
      then [exposureMsg] else []
  errors1 ++ errors2

-- ### Orchestration loop (`execute_agent_graph`)

/-- The `status_tracker` dict: its four fixed keys. -/
structure StatusTracker where
  graph_physics : String
  level_1_agents : String
  level_2_agents : String
  validation : String
deriving DecidableEq

/-- One entry of the returned `notifications` list.  The validated path emits
`NotificationItem.model_dump()` dicts (a `fact` key); the fallback path emits
a literal dict with `headline`/`explanation` keys. -/
inductive NotificationDict where
  | agentAlert (fact : String)
  | systemAlert (headline explanation : String)
deriving DecidableEq

/-- The returned `recommendation` dict.  The validated path emits
`AgentRecommendation.model_dump()` (keys `action`/`rationale`/
`confidence_score`); the fallback path emits a literal dict with keys
`consideration`/`rationale`/`confidence_score`. -/
inductive RecommendationDict where
  | agentRec (action rationale : String) (confidence_score : ℤ)
  | manualOverride (consideration rationale : String) (confidence_score : ℤ)
deriving DecidableEq

/-- The dict returned by `execute_agent_graph`. -/
structure RunResult where
  notifications : List NotificationDict
  recommendation : RecommendationDict
  computed_physics : ComputedPhysics
deriving DecidableEq

/-- The joined results of Stage 1 and Stage 2 for one attempt, as delivered
by the external agents; field names follow the result variables of the source. -/
structure AgentResults where
  fire_result : FireAnalysis
  risk_result : RiskAnalysis
  notif_result : AgentNotifications
  rec_result : AgentRecommendation
deriving DecidableEq

/-- The external agents, modelled as an oracle: per attempt index, validator
feedback and current previous recommendation they deliver one bundle of
schema-valid results. -/
def AgentOracle : Type := ℕ → String → Option RecommendationDict → AgentResults

/-- Instrumented return value of `execute_agent_graph`: the returned dict,
the final tracker state, the number of loop iterations (validator runs)
executed, and — on the validated path — the results of the accepted attempt. -/
structure RunTrace where
  result : RunResult
  tracker : StatusTracker
  iters : ℕ
  accepted : Option AgentResults

/-- The fixed fallback payload (terminal fallback state). -/
def fallbackResult (processed_graph : ProcessedGraph) : RunResult :=
  { notifications := [.systemAlert "System Alert"
      "Agent validation failed. Reverting to manual command."],
    recommendation := .manualOverride "Manual Override Required"
      "Physics constraints violated." 0,
    computed_physics := processed_graph.computed_physics }

/-- `model_dump()` of a backend `AgentRecommendation`. -/
def recDump (r : AgentRecommendation) : RecommendationDict :=
  .agentRec r.action r.rationale r.confidence_score

/-- The validated payload built from an accepted attempt. -/
def successResult (processed_graph : ProcessedGraph) (res : AgentResults) : RunResult :=
  { notifications := res.notif_result.alerts.map (fun a => .agentAlert a.fact),
    recommendation := recDump res.rec_result,
    computed_physics := processed_graph.computed_physics }

/-- The `while attempts < (MAX_RETRIES + 1)` loop of `execute_agent_graph`.
`remaining` is the structural fuel `MAX_RETRIES + 1 - attempts`; the guard
`attempts < MAX_RETRIES + 1` of the source is exactly `remaining ≠ 0`.  Each
iteration marks the stage keys, obtains the four agent results, validates,
and either returns the validated payload or records feedback, updates the
previous recommendation and retries. -/
def runLoop (oracle : AgentOracle) (processed_graph : ProcessedGraph)
    (tracker : StatusTracker) (attempts : ℕ) (validator_feedback : String)
    (current_previous_rec : Option RecommendationDict) (iters : ℕ) :
    ℕ → RunTrace
  | 0 =>
      { result := fallbackResult processed_graph,
        tracker := { tracker with validation := "error" },
        iters := iters, accepted := none }
  | remaining + 1 =>
      let tr0 := { tracker with level_1_agents := "running" }
      let res := oracle attempts validator_feedback current_previous_rec
      let tr1 := { tr0 with level_1_agents := "complete" }
      let tr1h := { tr1 with level_2_agents := "running" }
      let tr2 := { tr1h with level_2_agents := "complete" }
      let tr3 := { tr2 with validation := "running" }
      let errors := validate_agent_reasoning processed_graph res.risk_result res.rec_result
      if errors = [] then
        { result := successResult processed_graph res,
          tracker := { tr3 with validation := "complete" },
          iters := iters + 1, accepted := some res }
      else
        let tr4 := { tr3 with
                     validation := "error"
                     level_1_agents := "idle"
                     level_2_agents := "idle" }
        runLoop oracle processed_graph tr4 (attempts + 1)
          (String.intercalate " | " errors) (some (recDump res.rec_result)) (iters + 1)
          remaining

/-- `execute_agent_graph`: compute the physics once, then run the bounded
validation loop starting at `attempts = 0` with empty feedback. -/
def execute_agent_graph (live_graph : LiveGraph) (wind_data : WindData)
    (environment_data : EnvironmentData) (infrastructure_data : InfrastructureData)
    (previous_rec : Option RecommendationDict) (status_tracker : StatusTracker)
    (oracle : AgentOracle) : RunTrace :=
  let tr0 := { status_tracker with graph_physics := "running" }
  let processed_graph :=
    process_live_graph live_graph wind_data environment_data infrastructure_data
  let tracker := { tr0 with graph_physics := "complete" }
  runLoop oracle processed_graph tracker 0 "" previous_rec 0 (MAX_RETRIES + 1)

-- ### Rate-limit retry wrapper (`_call_openai_with_retry`)

/-- Python substring test `needle in hay`: some suffix of `hay` starts with
`needle`. -/
def containsSub (hay needle : List Char) : Bool :=
  match hay with
  | [] => needle.isPrefixOf []
  | _ :: rest => needle.isPrefixOf hay || containsSub rest needle

/-- Python `needle in hay` on strings. -/
def containsSubstr (hay needle : String) : Bool :=
  containsSub hay.data needle.data

/-- The error classification of the wrapper:
`"rate_limit" in error_str.lower() or "429" in error_str`. -/
def isRateLimitError (error_str : String) : Bool :=
  containsSubstr (lowerStr error_str) "rate_limit" || containsSubstr error_str "429"

deriving instance DecidableEq for Except

/-- Instrumented outcome of the retry wrapper: the value returned or error
re-raised (`Except.ok none` is the unreachable `return None` after the
loop), the backoff sleeps performed, and the number of calls made. -/
structure RetryTrace (α : Type) where
  result : Except String (Option α)
  sleeps : List ℕ
  calls : ℕ

/-- The `for attempt in range(RATE_LIMIT_RETRY_ATTEMPTS)` loop of
`_call_openai_with_retry`.  The wrapped call is modelled as `f`, giving for
each attempt index either a value or the string of the raised error.  `remaining`
is the structural fuel `RATE_LIMIT_RETRY_ATTEMPTS - attempt`. -/
def retryLoop {α : Type} (f : ℕ → Except String α) (attempt : ℕ)
    (sleeps : List ℕ) (calls : ℕ) : ℕ → RetryTrace α
  | 0 => { result := .ok none, sleeps := sleeps, calls := calls }
  | remaining + 1 =>
      match f attempt with
      | .ok a => { result := .ok (some a), sleeps := sleeps, calls := calls + 1 }
      | .error e =>
          if isRateLimitError e then
            if attempt < RATE_LIMIT_RETRY_ATTEMPTS - 1 then
              retryLoop f (attempt + 1)
                (sleeps ++ [RATE_LIMIT_BACKOFF_BASE * 2 ^ attempt]) (calls + 1)
                remaining
            else { result := .error e, sleeps := sleeps, calls := calls + 1 }
          else { result := .error e, sleeps := sleeps, calls := calls + 1 }

/-- `_call_openai_with_retry` (the leading underscore of the Python name is
dropped). -/
def call_openai_with_retry {α : Type} (f : ℕ → Except String α) : RetryTrace α :=
  retryLoop f 0 [] 0 RATE_LIMIT_RETRY_ATTEMPTS

end Backend

namespace RootOrch

-- ### src/orchestrator.py (near-duplicate variant, deterministic core only)

/-- `AgentRecommendation` pydantic model (root variant: `consideration`
instead of `action`). -/
structure AgentRecommendation where
  consideration : String
  rationale : String
  confidence_score : ℤ
deriving DecidableEq

/-- Same f-string as the backend variant. -/
def exposureEntry (t : Town) : String :=
  (t.name.getD "None") ++ " is " ++ toString (t.distance_km.getD 99) ++ "km away."

/-- One iteration of the `for town in towns` loop (textually identical to
the backend variant). -/
def townStep (st : String × List String) (town : Town) : String × List String :=
  let distance := town.distance_km.getD 99
  if distance < 5 then ("CRITICAL", st.2 ++ [exposureEntry town])
  else if distance < 15 ∧ st.1 ≠ "CRITICAL" then ("ELEVATED", st.2)
  else st

/-- `process_live_graph` of src/orchestrator.py (textually identical to the
backend variant). -/
def process_live_graph (live_graph : LiveGraph) (wind_data : WindData)
    (environment_data : EnvironmentData) (infrastructure_data : InfrastructureData) :
    ProcessedGraph :=
  let step : ℤ := max 1 (live_graph.step.getD 1)
  let total_burning : ℚ := live_graph.total_burning.getD 0
  let total_burned : ℚ := live_graph.total_burned.getD 0
  let wind_speed : ℚ := wind_data.speed.getD 0
  let slope : ℚ := environment_data.slope.getD 0
  let vegetation : String := lowerStr (environment_data.terrain_vegetation.getD "unknown")
  let towns : List Town := infrastructure_data.nearby_towns.getD []
  let base_spread_velocity : ℚ := round2 (total_burning / (step : ℚ))
  let m1 : ℚ := 1.0
  let m2 : ℚ := if slope > 20 then m1 + 0.5 else m1
  let velocity_multiplier : ℚ :=
    if vegetation ∈ ["chaparral", "brush", "timber"] then m2 + 0.3 else m2
  let effective_spread_velocity : ℚ := round2 (base_spread_velocity * velocity_multiplier)
  let folded := towns.foldl townStep ("LOW", [])
  let baseline_threat : String :=
    if effective_spread_velocity > 15 ∨ (wind_speed > 30 ∧ slope > 15)
    then "CRITICAL" else folded.1
  { raw_stats := { step := step, active_fire_cells := total_burning,
                   total_destroyed_cells := total_burned },
    computed_physics := { base_spread_velocity := base_spread_velocity,
                          effective_velocity_multiplier := velocity_multiplier,
                          effective_spread_velocity := effective_spread_velocity,
                          deterministic_baseline_threat := baseline_threat,
                          critical_exposures_identified := folded.2 } }

/-- R1 message (textually identical to the backend variant). -/
def escalationMsg (level : String) : String :=
  "Physics Violation: Deterministic math calculates a CRITICAL threat " ++
    "but you output \x27" ++ level ++ "\x27. You MUST escalate."

/-- R2 message (textually identical to the backend variant). -/
def exposureMsg : String :=
  "Logic Violation: You failed to mention critical exposure town(s) in your vulnerable targets."

/-- Name extraction (textually identical to the backend variant). -/
def exposureNames (exposures : List String) : List String :=
  exposures.filterMap (fun e =>
    let name : String := ⟨stripChars (splitHeadBefore " is ".data e.data)⟩
    if name ≠ "" then some name else none)

/-- `validate_agent_reasoning` of src/orchestrator.py (textually identical
logic; only the unused `rec_data` parameter differs in type). -/
def validate_agent_reasoning (processed_graph : ProcessedGraph)
    (risk_data : RiskAnalysis) (rec_data : AgentRecommendation) : List String :=
  let physics := processed_graph.computed_physics
  let errors1 : List String :=
    if physics.deterministic_baseline_threat = "CRITICAL" ∧ risk_data.threat_level ≠ "CRITICAL"
    then [escalationMsg risk_data.threat_level] else []
  let exposures := physics.critical_exposures_identified
  let errors2 : List String :=
    if exposures = [] then []
    else
      let names := exposureNames exposures
      if names ≠ [] ∧ ¬ (names.any fun name => risk_data.vulnerable_targets.contains name)
      then [exposureMsg] else []
  errors1 ++ errors2

end RootOrch

end Containment

-- ### Helper lemmas

namespace Containment

namespace Backend

/-- The exposure list built by the town loop: the initial accumulator
followed by one formatted entry per town closer than 5 km, in order. -/
theorem townFold_exposures (ts : List Town) (st : String × List String) :
    (ts.foldl townStep st).2 =
      st.2 ++ (ts.filter (fun t => decide (t.distance_km.getD 99 < 5))).map exposureEntry := by
  induction ts generalizing st with
  | nil => simp
  | cons t ts ih =>
      simp only [List.foldl_cons, List.filter_cons]
      by_cases h5 : t.distance_km.getD 99 < 5
      · rw [ih]
        simp [townStep, if_pos h5, h5]
      · have hstep : (townStep st t).2 = st.2 := by
          simp only [townStep, if_neg h5]
          split <;> rfl
        rw [ih, hstep]
        simp [h5]

/-- The town loop never leaves the CRITICAL state. -/
theorem townFold_critical_preserved (ts : List Town) (st : String × List String)
    (h : st.1 = "CRITICAL") : (ts.foldl townStep st).1 = "CRITICAL" := by
  induction ts generalizing st with
  | nil => exact h
  | cons t ts ih =>
      refine ih _ ?_
      simp only [townStep]
      split
      · rfl
      · split
        · next hcond => exact absurd h hcond.2
        · exact h

/-- A town closer than 5 km forces the loop state to CRITICAL. -/
theorem townFold_critical_of_mem (ts : List Town) (st : String × List String)
    (t : Town) (hmem : t ∈ ts) (h5 : t.distance_km.getD 99 < 5) :
    (ts.foldl townStep st).1 = "CRITICAL" := by
  induction ts generalizing st with
  | nil => cases hmem
  | cons u ts ih =>
      rcases List.mem_cons.mp hmem with rfl | hmem
      · refine townFold_critical_preserved ts _ ?_
        simp [townStep, if_pos h5]
      · exact ih _ hmem

/-- An accepted (empty) validation forbids contradicting a CRITICAL
baseline. -/
theorem validate_nil_escalation (pg : ProcessedGraph) (risk : RiskAnalysis)
    (rec : AgentRecommendation)
    (h : validate_agent_reasoning pg risk rec = [])
    (hc : pg.computed_physics.deterministic_baseline_threat = "CRITICAL") :
    risk.threat_level = "CRITICAL" := by
  by_contra hne
  simp only [validate_agent_reasoning, List.append_eq_nil] at h
  rw [if_pos ⟨hc, hne⟩] at h
  exact absurd h.1 (List.cons_ne_nil _ _)

/-- An accepted (empty) validation requires some extracted exposure name to
be listed among the vulnerable targets, whenever any name was extracted. -/
theorem validate_nil_exposures (pg : ProcessedGraph) (risk : RiskAnalysis)
    (rec : AgentRecommendation)
    (h : validate_agent_reasoning pg risk rec = [])
    (hn : exposureNames pg.computed_physics.critical_exposures_identified ≠ []) :
    ∃ n ∈ exposureNames pg.computed_physics.critical_exposures_identified,
      n ∈ risk.vulnerable_targets := by
  have hexp : pg.computed_physics.critical_exposures_identified ≠ [] := by
    intro he
    exact hn (by simp [exposureNames, he])
  simp only [validate_agent_reasoning, List.append_eq_nil] at h
  rcases h with ⟨-, h2⟩
  rw [if_neg hexp] at h2
  by_cases hany : ((exposureNames pg.computed_physics.critical_exposures_identified).any
      fun name => risk.vulnerable_targets.contains name) = true
  · rcases List.any_eq_true.mp hany with ⟨n, hn1, hn2⟩
    exact ⟨n, hn1, List.mem_of_elem_eq_true hn2⟩
  · rw [if_pos ⟨hn, hany⟩] at h2
    exact absurd h2 (List.cons_ne_nil _ _)

/-- Every run of the loop ends in exactly one of the two terminal states:
a validated payload built from an accepted attempt, or the fallback. -/
theorem runLoop_spec (oracle : AgentOracle) (pg : ProcessedGraph)
    (tr : StatusTracker) (attempts : ℕ) (fb : String)
    (prev : Option RecommendationDict) (iters fuel : ℕ) :
    (∃ res, (runLoop oracle pg tr attempts fb prev iters fuel).accepted = some res ∧
       validate_agent_reasoning pg res.risk_result res.rec_result = [] ∧
       (runLoop oracle pg tr attempts fb prev iters fuel).result = successResult pg res ∧
       (runLoop oracle pg tr attempts fb prev iters fuel).tracker.validation = "complete") ∨
    ((runLoop oracle pg tr attempts fb prev iters fuel).accepted = none ∧
       (runLoop oracle pg tr attempts fb prev iters fuel).result = fallbackResult pg ∧
       (runLoop oracle pg tr attempts fb prev iters fuel).tracker.validation = "error") := by
  induction fuel generalizing tr attempts fb prev iters with
  | zero => right; simp [runLoop]
  | succ n ih =>
      by_cases h : validate_agent_reasoning pg (oracle attempts fb prev).risk_result
          (oracle attempts fb prev).rec_result = []
      · left
        exact ⟨oracle attempts fb prev, by simp [runLoop, h], h, by simp [runLoop, h],
          by simp [runLoop, h]⟩
      · simpa only [runLoop, if_neg h] using ih _ _ _ _ _

/-- The loop performs at most `fuel` further iterations. -/
theorem runLoop_iters_le (oracle : AgentOracle) (pg : ProcessedGraph)
    (tr : StatusTracker) (attempts : ℕ) (fb : String)
    (prev : Option RecommendationDict) (iters fuel : ℕ) :
    (runLoop oracle pg tr attempts fb prev iters fuel).iters ≤ iters + fuel := by
  induction fuel generalizing tr attempts fb prev iters with
  | zero => simp [runLoop]
  | succ n ih =>
      by_cases h : validate_agent_reasoning pg (oracle attempts fb prev).risk_result
          (oracle attempts fb prev).rec_result = []
      · simp [runLoop, h]
      · rw [runLoop, if_neg h]
        refine le_trans (ih _ _ _ _ _) (by omega)

/-- If the oracle never satisfies the validator, the loop burns all its fuel
and lands in the fallback state. -/
theorem runLoop_all_rejected (oracle : AgentOracle) (pg : ProcessedGraph)
    (tr : StatusTracker) (attempts : ℕ) (fb : String)
    (prev : Option RecommendationDict) (iters fuel : ℕ)
    (hrej : ∀ i f p, validate_agent_reasoning pg (oracle i f p).risk_result
      (oracle i f p).rec_result ≠ []) :
    (runLoop oracle pg tr attempts fb prev iters fuel).iters = iters + fuel ∧
    (runLoop oracle pg tr attempts fb prev iters fuel).result = fallbackResult pg ∧
    (runLoop oracle pg tr attempts fb prev iters fuel).tracker.validation = "error" ∧
    (runLoop oracle pg tr attempts fb prev iters fuel).accepted = none := by
  induction fuel generalizing tr attempts fb prev iters with
  | zero => simp [runLoop]
  | succ n ih =>
      rw [runLoop, if_neg (hrej attempts fb prev)]
      obtain ⟨h1, h2, h3, h4⟩ := ih _ _ _ _ _
      exact ⟨by rw [h1]; omega, h2, h3, h4⟩

end Backend

end Containment

-- ### Claims

namespace Containment

/-- The baseline-threat field unfolded to its defining conditional. -/
theorem backend_threat_eq (lg : LiveGraph) (wd : WindData) (ed : EnvironmentData)
    (infra : InfrastructureData) :
    (Backend.process_live_graph lg wd ed infra).computed_physics.deterministic_baseline_threat =
      if (Backend.process_live_graph lg wd ed infra).computed_physics.effective_spread_velocity > 15
          ∨ (wd.speed.getD 0 > 30 ∧ ed.slope.getD 0 > 15)
      then "CRITICAL"
      else ((infra.nearby_towns.getD []).foldl Backend.townStep ("LOW", [])).1 := rfl

/-- The exposure field unfolded to the town fold. -/
theorem backend_exposures_eq (lg : LiveGraph) (wd : WindData) (ed : EnvironmentData)
    (infra : InfrastructureData) :
    (Backend.process_live_graph lg wd ed infra).computed_physics.critical_exposures_identified =
      ((infra.nearby_towns.getD []).foldl Backend.townStep ("LOW", [])).2 := rfl

/-- Claim C4: any town closer than 5 km forces `deterministic_baseline_threat
= CRITICAL` and contributes its formatted record to
`critical_exposures_identified` (the exposure list is exactly the in-order
records of towns closer than 5 km); a town at distance in `[5, 15)` only
raises the loop state to ELEVATED when it is not already CRITICAL, and never
adds an exposure record. -/
theorem C4_town_proximity (lg : LiveGraph) (wd : WindData) (ed : EnvironmentData)
    (infra : InfrastructureData) :
    (∀ t ∈ infra.nearby_towns.getD [], t.distance_km.getD 99 < 5 →
       (Backend.process_live_graph lg wd ed infra).computed_physics.deterministic_baseline_threat
         = "CRITICAL" ∧
       Backend.exposureEntry t ∈
         (Backend.process_live_graph lg wd ed infra).computed_physics.critical_exposures_identified) ∧
    ((Backend.process_live_graph lg wd ed infra).computed_physics.critical_exposures_identified =
       ((infra.nearby_towns.getD []).filter
          (fun t => decide (t.distance_km.getD 99 < 5))).map Backend.exposureEntry) ∧
    (∀ (st : String × List String) (t : Town),
       5 ≤ t.distance_km.getD 99 → t.distance_km.getD 99 < 15 →
       Backend.townStep st t = (if st.1 = "CRITICAL" then st.1 else "ELEVATED", st.2)) := by
  refine ⟨?_, ?_, ?_⟩
  · intro t hmem h5
    constructor
    · rw [backend_threat_eq]
      have hfold := Backend.townFold_critical_of_mem _ ("LOW", []) t hmem h5
      split
      · rfl
      · exact hfold
    · rw [backend_exposures_eq, Backend.townFold_exposures]
      refine List.mem_append_right _ (List.mem_map_of_mem _ ?_)
      exact List.mem_filter.mpr ⟨hmem, by simpa using h5⟩
  · rw [backend_exposures_eq, Backend.townFold_exposures]
    rfl
  · intro st t h5 h15
    have hnot5 : ¬ t.distance_km.getD 99 < 5 := not_lt.mpr (le_trans (by norm_num) h5)
    simp only [Backend.townStep, if_neg hnot5]
    by_cases hc : st.1 = "CRITICAL"
    · rw [if_neg (by simp [hc]), if_pos hc]
    · rw [if_pos ⟨h15, hc⟩, if_neg hc]

/-- Witness for C4 at a concrete input: towns `Alpha` (2 km) and `Mid`
(10 km). -/
theorem C4_town_proximity_witness :
    ((⟨some "Alpha", some 2⟩ : Town) ∈
        (InfrastructureData.mk (some [⟨some "Alpha", some 2⟩, ⟨some "Mid", some 10⟩])).nearby_towns.getD []
      ∧ (2 : ℚ) < 5 ∧ (5 : ℚ) ≤ 10 ∧ (10 : ℚ) < 15) ∧
    ((Backend.process_live_graph ⟨none, none, none⟩ ⟨none⟩ ⟨none, none⟩
        ⟨some [⟨some "Alpha", some 2⟩, ⟨some "Mid", some 10⟩]⟩).computed_physics.deterministic_baseline_threat
       = "CRITICAL" ∧
     Backend.exposureEntry ⟨some "Alpha", some 2⟩ ∈
       (Backend.process_live_graph ⟨none, none, none⟩ ⟨none⟩ ⟨none, none⟩
         ⟨some [⟨some "Alpha", some 2⟩, ⟨some "Mid", some 10⟩]⟩).computed_physics.critical_exposures_identified) ∧
    Backend.townStep ("LOW", []) ⟨some "Mid", some 10⟩ =
      (if (("LOW", []) : String × List String).1 = "CRITICAL" then (("LOW", []) : String × List String).1 else "ELEVATED",
        (("LOW", []) : String × List String).2) := by
  refine ⟨⟨by decide, by norm_num, by norm_num, by norm_num⟩, ?_, ?_⟩
  · exact (C4_town_proximity ⟨none, none, none⟩ ⟨none⟩ ⟨none, none⟩
      ⟨some [⟨some "Alpha", some 2⟩, ⟨some "Mid", some 10⟩]⟩).1
      ⟨some "Alpha", some 2⟩ (by decide) (by norm_num)
  · exact (C4_town_proximity ⟨none, none, none⟩ ⟨none⟩ ⟨none, none⟩
      ⟨some [⟨some "Alpha", some 2⟩, ⟨some "Mid", some 10⟩]⟩).2.2
      ("LOW", []) ⟨some "Mid", some 10⟩ (by norm_num) (by norm_num)

/-- Claim C5: the velocity rule (`effective_spread_velocity > 15`) and the
wind/slope rule (`wind_speed > 30` and `slope > 15`) each force a CRITICAL
baseline regardless of towns, and the classification is monotone: a
CRITICAL loop state is preserved by every later town step and by the final
escalation rule. -/
theorem C5_critical_escalation_monotone (lg : LiveGraph) (wd : WindData)
    (ed : EnvironmentData) (infra : InfrastructureData) :
    ((Backend.process_live_graph lg wd ed infra).computed_physics.effective_spread_velocity > 15 →
       (Backend.process_live_graph lg wd ed infra).computed_physics.deterministic_baseline_threat
         = "CRITICAL") ∧
    (wd.speed.getD 0 > 30 ∧ ed.slope.getD 0 > 15 →
       (Backend.process_live_graph lg wd ed infra).computed_physics.deterministic_baseline_threat
         = "CRITICAL") ∧
    (∀ (st : String × List String) (ts : List Town), st.1 = "CRITICAL" →
       (ts.foldl Backend.townStep st).1 = "CRITICAL") ∧
    (((infra.nearby_towns.getD []).foldl Backend.townStep ("LOW", [])).1 = "CRITICAL" →
       (Backend.process_live_graph lg wd ed infra).computed_physics.deterministic_baseline_threat
         = "CRITICAL") := by
  refine ⟨?_, ?_, ?_, ?_⟩
  · intro hv
    rw [backend_threat_eq, if_pos (Or.inl hv)]
  · intro hw
    rw [backend_threat_eq, if_pos (Or.inr hw)]
  · intro st ts h
    exact Backend.townFold_critical_preserved ts st h
  · intro hfold
    rw [backend_threat_eq]
    split
    · rfl
    · exact hfold

/-- Witness for C5: wind 35 and slope 18 trigger the wind/slope rule; the
monotone conjuncts instantiated at a CRITICAL state and a distant town. -/
theorem C5_critical_escalation_monotone_witness :
    ((35 : ℚ) > 30 ∧ (18 : ℚ) > 15) ∧
    (Backend.process_live_graph ⟨none, none, none⟩ ⟨some 35⟩ ⟨some 18, none⟩
       ⟨none⟩).computed_physics.deterministic_baseline_threat = "CRITICAL" ∧
    (([⟨some "Far", some 50⟩] : List Town).foldl Backend.townStep ("CRITICAL", ["x"])).1
      = "CRITICAL" := by
  refine ⟨⟨by norm_num, by norm_num⟩, ?_, ?_⟩
  · exact (C5_critical_escalation_monotone ⟨none, none, none⟩ ⟨some 35⟩ ⟨some 18, none⟩
      ⟨none⟩).2.1 ⟨by norm_num, by norm_num⟩
  · exact (C5_critical_escalation_monotone ⟨none, none, none⟩ ⟨some 35⟩ ⟨some 18, none⟩
      ⟨none⟩).2.2.1 ("CRITICAL", ["x"]) [⟨some "Far", some 50⟩] rfl

/-- Claim C6: the velocity formulas — base velocity is
`round2(total_burning / max(step, 1))`, the multiplier is `1.0` plus `0.5`
for slope above 20 plus `0.3` for chaparral/brush/timber vegetation
(case-insensitively), effective velocity is their product rounded — and the
worked example `active_cells=40, step=2, slope=25, vegetation="chaparral",
towns=[]`. -/
theorem C6_velocity_formulas :
    (∀ (lg : LiveGraph) (wd : WindData) (ed : EnvironmentData) (infra : InfrastructureData),
       (Backend.process_live_graph lg wd ed infra).computed_physics.base_spread_velocity =
         round2 ((lg.total_burning.getD 0) / ((max 1 (lg.step.getD 1) : ℤ) : ℚ)) ∧
       (Backend.process_live_graph lg wd ed infra).computed_physics.effective_velocity_multiplier =
         1.0 + (if ed.slope.getD 0 > 20 then 0.5 else 0) +
           (if lowerStr (ed.terrain_vegetation.getD "unknown") ∈ ["chaparral", "brush", "timber"]
            then 0.3 else 0) ∧
       (Backend.process_live_graph lg wd ed infra).computed_physics.effective_spread_velocity =
         round2 ((Backend.process_live_graph lg wd ed infra).computed_physics.base_spread_velocity *
           (Backend.process_live_graph lg wd ed infra).computed_physics.effective_velocity_multiplier)) ∧
    (Backend.process_live_graph ⟨some 2, some 40, none⟩ ⟨none⟩ ⟨some 25, some "chaparral"⟩
       ⟨some []⟩).computed_physics = ⟨20, 1.8, 36, "CRITICAL", []⟩ := by
  constructor
  · intro lg wd ed infra
    refine ⟨rfl, ?_, rfl⟩
    show (if lowerStr (ed.terrain_vegetation.getD "unknown") ∈ ["chaparral", "brush", "timber"]
        then (if ed.slope.getD 0 > 20 then (1.0 : ℚ) + 0.5 else 1.0) + 0.3
        else (if ed.slope.getD 0 > 20 then (1.0 : ℚ) + 0.5 else 1.0)) = _
    by_cases hs : ed.slope.getD 0 > 20 <;>
      by_cases hv : lowerStr (ed.terrain_vegetation.getD "unknown") ∈ ["chaparral", "brush", "timber"] <;>
      simp [hs, hv]
  · have hlow : lowerStr "chaparral" = "chaparral" := by decide
    simp only [Backend.process_live_graph, Option.getD, hlow]
    norm_num [round2]

/-- Claim C7: the validator evaluates R1 and R2 independently and collects
all violations.  (A) Against a CRITICAL baseline with empty exposures, a LOW
risk yields exactly the one R1 escalation string and no R2 violation.
(B) When R2 fires (non-empty exposures, at least one extracted name, none
listed), replacing only `vulnerable_targets` by a list containing some
extracted exposure name leaves the R1 part unchanged and removes exactly
the trailing R2 violation. -/
theorem C7_validator_rules_independent :
    (∀ (pg : ProcessedGraph) (risk : RiskAnalysis) (rec : Backend.AgentRecommendation),
       pg.computed_physics.deterministic_baseline_threat = "CRITICAL" →
       risk.threat_level = "LOW" →
       pg.computed_physics.critical_exposures_identified = [] →
       Backend.validate_agent_reasoning pg risk rec = [Backend.escalationMsg "LOW"]) ∧
    (∀ (pg : ProcessedGraph) (risk : RiskAnalysis) (rec : Backend.AgentRecommendation)
       (targets2 : List String),
       pg.computed_physics.critical_exposures_identified ≠ [] →
       Backend.exposureNames pg.computed_physics.critical_exposures_identified ≠ [] →
       ¬ ((Backend.exposureNames pg.computed_physics.critical_exposures_identified).any
            fun name => risk.vulnerable_targets.contains name) = true →
       ((Backend.exposureNames pg.computed_physics.critical_exposures_identified).any
            fun name => targets2.contains name) = true →
       Backend.validate_agent_reasoning pg ⟨risk.threat_level, targets2⟩ rec =
         (if pg.computed_physics.deterministic_baseline_threat = "CRITICAL"
             ∧ risk.threat_level ≠ "CRITICAL"
          then [Backend.escalationMsg risk.threat_level] else []) ∧
       Backend.validate_agent_reasoning pg risk rec =
         (if pg.computed_physics.deterministic_baseline_threat = "CRITICAL"
             ∧ risk.threat_level ≠ "CRITICAL"
          then [Backend.escalationMsg risk.threat_level] else []) ++ [Backend.exposureMsg]) := by
  constructor
  · intro pg risk rec hc hlow hexp
    have hne : ("LOW" : String) ≠ "CRITICAL" := by decide
    simp only [Backend.validate_agent_reasoning, hexp, hlow, hc]
    simp [hne]
  · intro pg risk rec targets2 hexp hnames hnone hsome
    have hcond2 : Backend.exposureNames pg.computed_physics.critical_exposures_identified ≠ []
        ∧ ¬ ((Backend.exposureNames pg.computed_physics.critical_exposures_identified).any
              fun name => risk.vulnerable_targets.contains name) = true := ⟨hnames, hnone⟩
    have hcondNew : ¬ (Backend.exposureNames pg.computed_physics.critical_exposures_identified ≠ []
        ∧ ¬ ((Backend.exposureNames pg.computed_physics.critical_exposures_identified).any
              fun name => targets2.contains name) = true) := fun hcon => hcon.2 hsome
    constructor
    · simp only [Backend.validate_agent_reasoning]
      rw [if_neg hexp, if_neg hcondNew, List.append_nil]
    · simp only [Backend.validate_agent_reasoning]
      rw [if_neg hexp, if_pos hcond2]

/-- Witness for C7: part (A) at a CRITICAL/exposure-free physics snapshot
with a LOW risk; part (B) at a two-exposure snapshot where fixing the
target list to `["Beta"]` clears R2. -/
theorem C7_validator_rules_independent_witness :
    ((⟨⟨1, 0, 0⟩, ⟨0, 1, 0, "CRITICAL", []⟩⟩ : ProcessedGraph).computed_physics.deterministic_baseline_threat
        = "CRITICAL" ∧
      ((⟨"LOW", []⟩ : RiskAnalysis).threat_level = "LOW") ∧
      Backend.validate_agent_reasoning ⟨⟨1, 0, 0⟩, ⟨0, 1, 0, "CRITICAL", []⟩⟩ ⟨"LOW", []⟩
        ⟨"hold", "why", 50⟩ = [Backend.escalationMsg "LOW"]) ∧
    (Backend.validate_agent_reasoning
        ⟨⟨1, 0, 0⟩, ⟨0, 1, 0, "CRITICAL", ["Alpha is 2km away.", "Beta is 3km away."]⟩⟩
        ⟨"CRITICAL", ["Beta"]⟩ ⟨"hold", "why", 50⟩ = [] ∧
      Backend.validate_agent_reasoning
        ⟨⟨1, 0, 0⟩, ⟨0, 1, 0, "CRITICAL", ["Alpha is 2km away.", "Beta is 3km away."]⟩⟩
        ⟨"CRITICAL", []⟩ ⟨"hold", "why", 50⟩ = [Backend.exposureMsg]) := by
  refine ⟨⟨rfl, rfl, ?_⟩, ?_⟩
  · exact (C7_validator_rules_independent).1 _ _ _ rfl rfl rfl
  · have h := (C7_validator_rules_independent).2
      ⟨⟨1, 0, 0⟩, ⟨0, 1, 0, "CRITICAL", ["Alpha is 2km away.", "Beta is 3km away."]⟩⟩
      ⟨"CRITICAL", []⟩ ⟨"hold", "why", 50⟩ ["Beta"]
      (by decide) (by decide) (by decide) (by decide)
    refine ⟨?_, ?_⟩
    · rw [h.1]; decide
    · rw [h.2]; decide


-- ### Concrete inputs for the orchestration-level claims

/-- All four stage keys idle, as the delivery layer initialises them. -/
def trkIdle : Backend.StatusTracker := ⟨"idle", "idle", "idle", "idle"⟩

def wLG : LiveGraph := ⟨none, none, none⟩
def wWD : WindData := ⟨none⟩
def wED : EnvironmentData := ⟨none, none⟩

/-- One town 2 km away. -/
def wID1 : InfrastructureData := ⟨some [⟨some "Alpha", some 2⟩]⟩

/-- Two towns closer than 5 km. -/
def wID2 : InfrastructureData := ⟨some [⟨some "Alpha", some 2⟩, ⟨some "Beta", some 3⟩]⟩

def pgW1 : ProcessedGraph := ⟨⟨1, 0, 0⟩, ⟨0, 1, 0, "CRITICAL", ["Alpha is 2km away."]⟩⟩

def pgW2 : ProcessedGraph :=
  ⟨⟨1, 0, 0⟩, ⟨0, 1, 0, "CRITICAL", ["Alpha is 2km away.", "Beta is 3km away."]⟩⟩

/-- An oracle whose risk agent always answers LOW with no targets: every
attempt is rejected against a CRITICAL baseline. -/
def oracleLow : Backend.AgentOracle := fun _ _ _ =>
  ⟨⟨"b", "d", "v"⟩, ⟨"LOW", []⟩, ⟨[⟨"n1"⟩, ⟨"n2"⟩, ⟨"n3"⟩]⟩, ⟨"act", "rat", 70⟩⟩

/-- An oracle that concedes CRITICAL but lists only the town `Alpha`. -/
def oracleAlphaOnly : Backend.AgentOracle := fun _ _ _ =>
  ⟨⟨"b", "d", "v"⟩, ⟨"CRITICAL", ["Alpha"]⟩, ⟨[⟨"n1"⟩, ⟨"n2"⟩, ⟨"n3"⟩]⟩, ⟨"act", "rat", 70⟩⟩

theorem pgW1_eval : Backend.process_live_graph wLG wWD wED wID1 = pgW1 := by
  have hlow : lowerStr "unknown" = "unknown" := by decide
  have hfold : (([⟨some "Alpha", some 2⟩] : List Town).foldl Backend.townStep ("LOW", [])) =
      ("CRITICAL", ["Alpha is 2km away."]) := by decide
  simp only [Backend.process_live_graph, wLG, wWD, wED, wID1, pgW1, Option.getD, hlow, hfold]
  norm_num [round2] <;> decide

theorem pgW2_eval : Backend.process_live_graph wLG wWD wED wID2 = pgW2 := by
  have hlow : lowerStr "unknown" = "unknown" := by decide
  have hfold : (([⟨some "Alpha", some 2⟩, ⟨some "Beta", some 3⟩] : List Town).foldl
      Backend.townStep ("LOW", [])) =
      ("CRITICAL", ["Alpha is 2km away.", "Beta is 3km away."]) := by decide
  simp only [Backend.process_live_graph, wLG, wWD, wED, wID2, pgW2, Option.getD, hlow, hfold]
  norm_num [round2] <;> decide

/-- `execute_agent_graph` unfolded to its loop call. -/
theorem execute_eq (lg : LiveGraph) (wd : WindData) (ed : EnvironmentData)
    (infra : InfrastructureData) (prev : Option Backend.RecommendationDict)
    (tr : Backend.StatusTracker) (oracle : Backend.AgentOracle) :
    Backend.execute_agent_graph lg wd ed infra prev tr oracle =
      Backend.runLoop oracle (Backend.process_live_graph lg wd ed infra)
        { tr with graph_physics := "complete" } 0 "" prev 0 (Backend.MAX_RETRIES + 1) := rfl

-- ### Orchestration-level claims

/-- Claim C2: the orchestration loop executes at most `MAX_RETRIES + 1 = 3`
attempts for any input and any oracle, and when all three attempts are
rejected it performs exactly 3 iterations and returns the fallback payload,
iterating no further. -/
theorem C2_attempts_bounded (lg : LiveGraph) (wd : WindData) (ed : EnvironmentData)
    (infra : InfrastructureData) (prev : Option Backend.RecommendationDict)
    (tr : Backend.StatusTracker) (oracle : Backend.AgentOracle) :
    (Backend.execute_agent_graph lg wd ed infra prev tr oracle).iters ≤ Backend.MAX_RETRIES + 1 ∧
    ((∀ i f p, Backend.validate_agent_reasoning (Backend.process_live_graph lg wd ed infra)
        (oracle i f p).risk_result (oracle i f p).rec_result ≠ []) →
      (Backend.execute_agent_graph lg wd ed infra prev tr oracle).iters = Backend.MAX_RETRIES + 1 ∧
      (Backend.execute_agent_graph lg wd ed infra prev tr oracle).result =
        Backend.fallbackResult (Backend.process_live_graph lg wd ed infra)) := by
  constructor
  · rw [execute_eq]
    simpa using Backend.runLoop_iters_le oracle (Backend.process_live_graph lg wd ed infra)
      { tr with graph_physics := "complete" } 0 "" prev 0 (Backend.MAX_RETRIES + 1)
  · intro hrej
    obtain ⟨h1, h2, -, -⟩ := Backend.runLoop_all_rejected oracle
      (Backend.process_live_graph lg wd ed infra) { tr with graph_physics := "complete" }
      0 "" prev 0 (Backend.MAX_RETRIES + 1) hrej
    rw [execute_eq]
    exact ⟨by simpa using h1, h2⟩

/-- Witness for C2: the always-LOW oracle against a CRITICAL one-town
physics is rejected three times and falls back. -/
theorem C2_attempts_bounded_witness :
    (∀ i f p, Backend.validate_agent_reasoning (Backend.process_live_graph wLG wWD wED wID1)
        (oracleLow i f p).risk_result (oracleLow i f p).rec_result ≠ []) ∧
    ((Backend.execute_agent_graph wLG wWD wED wID1 none trkIdle oracleLow).iters =
        Backend.MAX_RETRIES + 1 ∧
      (Backend.execute_agent_graph wLG wWD wED wID1 none trkIdle oracleLow).result =
        Backend.fallbackResult (Backend.process_live_graph wLG wWD wED wID1)) := by
  have hrej : ∀ i f p, Backend.validate_agent_reasoning
      (Backend.process_live_graph wLG wWD wED wID1)
      (oracleLow i f p).risk_result (oracleLow i f p).rec_result ≠ [] := by
    intro i f p
    rw [pgW1_eval]
    simp only [oracleLow]
    decide
  exact ⟨hrej, (C2_attempts_bounded wLG wWD wED wID1 none trkIdle oracleLow).2 hrej⟩

/-- Claim C3: when all three attempts are rejected, the returned payload is
the fixed fallback — one system-alert notification, the manual-override
recommendation with confidence 0, the (single) computed physics — and the
`validation` key of the tracker ends as `error`. -/
theorem C3_fallback_shape (lg : LiveGraph) (wd : WindData) (ed : EnvironmentData)
    (infra : InfrastructureData) (prev : Option Backend.RecommendationDict)
    (tr : Backend.StatusTracker) (oracle : Backend.AgentOracle)
    (hrej : ∀ i f p, Backend.validate_agent_reasoning
      (Backend.process_live_graph lg wd ed infra)
      (oracle i f p).risk_result (oracle i f p).rec_result ≠ []) :
    (Backend.execute_agent_graph lg wd ed infra prev tr oracle).result.notifications =
      [Backend.NotificationDict.systemAlert "System Alert"
        "Agent validation failed. Reverting to manual command."] ∧
    (Backend.execute_agent_graph lg wd ed infra prev tr oracle).result.recommendation =
      Backend.RecommendationDict.manualOverride "Manual Override Required"
        "Physics constraints violated." 0 ∧
    (Backend.execute_agent_graph lg wd ed infra prev tr oracle).result.computed_physics =
      (Backend.process_live_graph lg wd ed infra).computed_physics ∧
    (Backend.execute_agent_graph lg wd ed infra prev tr oracle).tracker.validation = "error" := by
  obtain ⟨-, h2, h3, -⟩ := Backend.runLoop_all_rejected oracle
    (Backend.process_live_graph lg wd ed infra) { tr with graph_physics := "complete" }
    0 "" prev 0 (Backend.MAX_RETRIES + 1) hrej
  rw [execute_eq]
  rw [h2]
  exact ⟨rfl, rfl, rfl, h3⟩

/-- Witness for C3 at the concrete rejected run. -/
theorem C3_fallback_shape_witness :
    (∀ i f p, Backend.validate_agent_reasoning (Backend.process_live_graph wLG wWD wED wID1)
        (oracleLow i f p).risk_result (oracleLow i f p).rec_result ≠ []) ∧
    ((Backend.execute_agent_graph wLG wWD wED wID1 none trkIdle oracleLow).result.notifications =
        [Backend.NotificationDict.systemAlert "System Alert"
          "Agent validation failed. Reverting to manual command."] ∧
      (Backend.execute_agent_graph wLG wWD wED wID1 none trkIdle oracleLow).result.recommendation =
        Backend.RecommendationDict.manualOverride "Manual Override Required"
          "Physics constraints violated." 0 ∧
      (Backend.execute_agent_graph wLG wWD wED wID1 none trkIdle oracleLow).result.computed_physics =
        (Backend.process_live_graph wLG wWD wED wID1).computed_physics ∧
      (Backend.execute_agent_graph wLG wWD wED wID1 none trkIdle oracleLow).tracker.validation =
        "error") := by
  have hrej : ∀ i f p, Backend.validate_agent_reasoning
      (Backend.process_live_graph wLG wWD wED wID1)
      (oracleLow i f p).risk_result (oracleLow i f p).rec_result ≠ [] := by
    intro i f p
    rw [pgW1_eval]
    simp only [oracleLow]
    decide
  exact ⟨hrej, C3_fallback_shape wLG wWD wED wID1 none trkIdle oracleLow hrej⟩

/-- Claim C1 (amended): on the validated path the accepted RiskAnalysis
never contradicts a CRITICAL baseline, and — when the validator extracts at
least one exposure name — at least one extracted name (not necessarily
every name) appears among its vulnerable targets. -/
theorem C1_validated_consistency (lg : LiveGraph) (wd : WindData) (ed : EnvironmentData)
    (infra : InfrastructureData) (prev : Option Backend.RecommendationDict)
    (tr : Backend.StatusTracker) (oracle : Backend.AgentOracle)
    (res : Backend.AgentResults)
    (hacc : (Backend.execute_agent_graph lg wd ed infra prev tr oracle).accepted = some res) :
    ((Backend.process_live_graph lg wd ed infra).computed_physics.deterministic_baseline_threat
        = "CRITICAL" → res.risk_result.threat_level = "CRITICAL") ∧
    (Backend.exposureNames
        (Backend.process_live_graph lg wd ed infra).computed_physics.critical_exposures_identified
        ≠ [] →
      ∃ n ∈ Backend.exposureNames
        (Backend.process_live_graph lg wd ed infra).computed_physics.critical_exposures_identified,
        n ∈ res.risk_result.vulnerable_targets) := by
  rw [execute_eq] at hacc
  have hval : Backend.validate_agent_reasoning (Backend.process_live_graph lg wd ed infra)
      res.risk_result res.rec_result = [] := by
    rcases Backend.runLoop_spec oracle (Backend.process_live_graph lg wd ed infra)
        { tr with graph_physics := "complete" } 0 "" prev 0 (Backend.MAX_RETRIES + 1) with
      ⟨res2, ha, hv, -, -⟩ | ⟨ha, -, -⟩
    · rw [hacc] at ha
      cases Option.some.inj ha
      exact hv
    · rw [hacc] at ha
      cases ha
  exact ⟨fun hc => Backend.validate_nil_escalation _ _ _ hval hc,
    fun hn => Backend.validate_nil_exposures _ _ _ hval hn⟩

/-- Witness for the amended C1: the `oracleAlphaOnly` run is accepted on
attempt 0 against the two-town CRITICAL physics, its threat level is
CRITICAL, and the extracted name `Alpha` appears among its targets. -/
theorem C1_validated_consistency_witness :
    ((Backend.execute_agent_graph wLG wWD wED wID2 none trkIdle oracleAlphaOnly).accepted =
        some (oracleAlphaOnly 0 "" none) ∧
      (Backend.process_live_graph wLG wWD wED wID2).computed_physics.deterministic_baseline_threat
        = "CRITICAL" ∧
      Backend.exposureNames
        (Backend.process_live_graph wLG wWD wED wID2).computed_physics.critical_exposures_identified
        ≠ []) ∧
    ((oracleAlphaOnly 0 "" none).risk_result.threat_level = "CRITICAL" ∧
      ∃ n ∈ Backend.exposureNames
        (Backend.process_live_graph wLG wWD wED wID2).computed_physics.critical_exposures_identified,
        n ∈ (oracleAlphaOnly 0 "" none).risk_result.vulnerable_targets) := by
  have hacc : (Backend.execute_agent_graph wLG wWD wED wID2 none trkIdle oracleAlphaOnly).accepted =
      some (oracleAlphaOnly 0 "" none) := by
    rw [execute_eq, pgW2_eval]
    decide
  have hcrit : (Backend.process_live_graph wLG wWD wED wID2).computed_physics.deterministic_baseline_threat
      = "CRITICAL" := by
    rw [pgW2_eval]
    rfl
  have hne : Backend.exposureNames
      (Backend.process_live_graph wLG wWD wED wID2).computed_physics.critical_exposures_identified
      ≠ [] := by
    rw [pgW2_eval]
    decide
  have h := C1_validated_consistency wLG wWD wED wID2 none trkIdle oracleAlphaOnly _ hacc
  exact ⟨⟨hacc, hcrit, hne⟩, h.1 hcrit, h.2 hne⟩

/-- Counterexample to C1 as stated: a run that returns via the validated
path (accepted on attempt 0) against a CRITICAL baseline with two exposure
names, of which `Beta` does not appear among the accepted vulnerable
targets — so not every exposure name is covered. -/
theorem C1_exposure_coverage_counterexample :
    (Backend.execute_agent_graph wLG wWD wED wID2 none trkIdle oracleAlphaOnly).accepted =
        some (oracleAlphaOnly 0 "" none) ∧
    (Backend.process_live_graph wLG wWD wED wID2).computed_physics.deterministic_baseline_threat
        = "CRITICAL" ∧
    "Beta" ∈ Backend.exposureNames
        (Backend.process_live_graph wLG wWD wED wID2).computed_physics.critical_exposures_identified ∧
    "Beta" ∉ (oracleAlphaOnly 0 "" none).risk_result.vulnerable_targets := by
  refine ⟨?_, ?_, ?_, ?_⟩
  · rw [execute_eq, pgW2_eval]
    decide
  · rw [pgW2_eval]
    decide
  · rw [pgW2_eval]
    decide
  · decide

/-- Claim C9 (amended): a returned payload carries either the accepted
agent alerts of the accepted attempt unchanged (their number is not enforced by the
core), or — on the fallback path — exactly one system-alert notification. -/
theorem C9_notifications_shape (lg : LiveGraph) (wd : WindData) (ed : EnvironmentData)
    (infra : InfrastructureData) (prev : Option Backend.RecommendationDict)
    (tr : Backend.StatusTracker) (oracle : Backend.AgentOracle) :
    ((Backend.execute_agent_graph lg wd ed infra prev tr oracle).accepted = none ∧
      (Backend.execute_agent_graph lg wd ed infra prev tr oracle).result.notifications.length = 1) ∨
    (∃ res, (Backend.execute_agent_graph lg wd ed infra prev tr oracle).accepted = some res ∧
      (Backend.execute_agent_graph lg wd ed infra prev tr oracle).result.notifications =
        res.notif_result.alerts.map (fun a => Backend.NotificationDict.agentAlert a.fact)) := by
  rw [execute_eq]
  rcases Backend.runLoop_spec oracle (Backend.process_live_graph lg wd ed infra)
      { tr with graph_physics := "complete" } 0 "" prev 0 (Backend.MAX_RETRIES + 1) with
    ⟨res, ha, -, hr, -⟩ | ⟨ha, hr, -⟩
  · right
    exact ⟨res, ha, by rw [hr]; rfl⟩
  · left
    exact ⟨ha, by rw [hr]; rfl⟩

/-- Counterexample to C9 as stated: the fallback payload of a concrete
fully-rejected run contains exactly one notification, not three. -/
theorem C9_notifications_counterexample :
    (Backend.execute_agent_graph wLG wWD wED wID1 none trkIdle oracleLow).result.notifications.length
      = 1 ∧ (1 : ℕ) ≠ 3 := by
  constructor
  · rw [execute_eq, pgW1_eval]
    decide
  · decide


/-- Claim C8: the rate-limit wrapper makes at most 3 calls; a failure not
classified as rate-limit propagates immediately (after the exponential
backoff sleeps of the preceding rate-limited attempts only, doubling from
the 20 s base); and three rate-limited failures exhaust the bound, sleeping
20 s then 40 s and re-raising the last failure. -/
theorem C8_rate_limit_retry (α : Type) (f : ℕ → Except String α) :
    (Backend.call_openai_with_retry f).calls ≤ Backend.RATE_LIMIT_RETRY_ATTEMPTS ∧
    (∀ i e, i < Backend.RATE_LIMIT_RETRY_ATTEMPTS →
      (∀ j, j < i → ∃ ej, f j = .error ej ∧ Backend.isRateLimitError ej = true) →
      f i = .error e → Backend.isRateLimitError e = false →
      Backend.call_openai_with_retry f =
        ⟨.error e, (List.range i).map (fun j => Backend.RATE_LIMIT_BACKOFF_BASE * 2 ^ j), i + 1⟩) ∧
    (∀ e0 e1 e2,
      f 0 = .error e0 → Backend.isRateLimitError e0 = true →
      f 1 = .error e1 → Backend.isRateLimitError e1 = true →
      f 2 = .error e2 → Backend.isRateLimitError e2 = true →
      Backend.call_openai_with_retry f =
        ⟨.error e2, [Backend.RATE_LIMIT_BACKOFF_BASE, Backend.RATE_LIMIT_BACKOFF_BASE * 2], 3⟩) := by
  refine ⟨?_, ?_, ?_⟩
  · cases hf0 : f 0 with
    | ok a => simp [Backend.call_openai_with_retry, Backend.retryLoop,
        Backend.RATE_LIMIT_RETRY_ATTEMPTS, hf0]
    | error e0 =>
        by_cases h0 : Backend.isRateLimitError e0 = true
        · cases hf1 : f 1 with
          | ok a => simp [Backend.call_openai_with_retry, Backend.retryLoop,
              Backend.RATE_LIMIT_RETRY_ATTEMPTS, hf0, hf1, h0]
          | error e1 =>
              by_cases h1 : Backend.isRateLimitError e1 = true
              · cases hf2 : f 2 with
                | ok a => simp [Backend.call_openai_with_retry, Backend.retryLoop,
                    Backend.RATE_LIMIT_RETRY_ATTEMPTS, hf0, hf1, hf2, h0, h1]
                | error e2 => simp [Backend.call_openai_with_retry, Backend.retryLoop,
                    Backend.RATE_LIMIT_RETRY_ATTEMPTS, hf0, hf1, hf2, h0, h1]
              · simp [Backend.call_openai_with_retry, Backend.retryLoop,
                  Backend.RATE_LIMIT_RETRY_ATTEMPTS, hf0, hf1, h0, h1]
        · simp [Backend.call_openai_with_retry, Backend.retryLoop,
            Backend.RATE_LIMIT_RETRY_ATTEMPTS, hf0, h0]
  · intro i e hi hpre hfi hnr
    have hi3 : i < 3 := hi
    interval_cases i
    · simp [Backend.call_openai_with_retry, Backend.retryLoop,
        Backend.RATE_LIMIT_RETRY_ATTEMPTS, hfi, hnr]
    · obtain ⟨e0, hf0, hrl0⟩ := hpre 0 (by omega)
      simp [Backend.call_openai_with_retry, Backend.retryLoop,
        Backend.RATE_LIMIT_RETRY_ATTEMPTS, Backend.RATE_LIMIT_BACKOFF_BASE,
        hf0, hrl0, hfi, hnr, List.range_succ]
    · obtain ⟨e0, hf0, hrl0⟩ := hpre 0 (by omega)
      obtain ⟨e1, hf1, hrl1⟩ := hpre 1 (by omega)
      simp [Backend.call_openai_with_retry, Backend.retryLoop,
        Backend.RATE_LIMIT_RETRY_ATTEMPTS, Backend.RATE_LIMIT_BACKOFF_BASE,
        hf0, hrl0, hf1, hrl1, hfi, hnr, List.range_succ]
  · intro e0 e1 e2 hf0 hrl0 hf1 hrl1 hf2 hrl2
    simp [Backend.call_openai_with_retry, Backend.retryLoop,
      Backend.RATE_LIMIT_RETRY_ATTEMPTS, Backend.RATE_LIMIT_BACKOFF_BASE,
      hf0, hrl0, hf1, hrl1, hf2, hrl2]

/-- Witness for C8: a wrapped call that always raises a 429 error exhausts
the three attempts with sleeps 20 s and 40 s, and the bound holds. -/
theorem C8_rate_limit_retry_witness :
    ((fun _ => Except.error "Error code: 429 - rate limit" : ℕ → Except String Unit) 0 =
        Except.error "Error code: 429 - rate limit" ∧
      Backend.isRateLimitError "Error code: 429 - rate limit" = true) ∧
    Backend.call_openai_with_retry
        (fun _ => Except.error "Error code: 429 - rate limit" : ℕ → Except String Unit) =
      ⟨.error "Error code: 429 - rate limit",
        [Backend.RATE_LIMIT_BACKOFF_BASE, Backend.RATE_LIMIT_BACKOFF_BASE * 2], 3⟩ ∧
    (Backend.call_openai_with_retry
        (fun _ => Except.error "Error code: 429 - rate limit" : ℕ → Except String Unit)).calls ≤
      Backend.RATE_LIMIT_RETRY_ATTEMPTS := by
  have hrl : Backend.isRateLimitError "Error code: 429 - rate limit" = true := by decide
  refine ⟨⟨rfl, hrl⟩, ?_, ?_⟩
  · exact (C8_rate_limit_retry Unit _).2.2 _ _ _ rfl hrl rfl hrl rfl hrl
  · exact (C8_rate_limit_retry Unit _).1

/-- Claim C10: the deterministic cores of the two orchestrator variants are
extensionally equal — `process_live_graph` agrees on every input, and
`validate_agent_reasoning` returns the same violation list for every
processed graph and risk analysis, whatever recommendation value each
variant is handed (neither inspects it). -/
theorem C10_variants_equivalent :
    (∀ (lg : LiveGraph) (wd : WindData) (ed : EnvironmentData) (infra : InfrastructureData),
       Backend.process_live_graph lg wd ed infra = RootOrch.process_live_graph lg wd ed infra) ∧
    (∀ (pg : ProcessedGraph) (risk : RiskAnalysis) (recB : Backend.AgentRecommendation)
       (recR : RootOrch.AgentRecommendation),
       Backend.validate_agent_reasoning pg risk recB =
         RootOrch.validate_agent_reasoning pg risk recR) := by
  constructor
  · intro lg wd ed infra
    rfl
  · intro pg risk recB recR
    rfl

end Containment